import Mathlib

/-!
Shallow embedding of the wmbusmeters main controller (src/main.cc):
device detection dispatch, link-mode inference, meter construction and
callback registration, the oneshot check and discovery mode.  The telegram
dispatch pipeline (meter matching, decryption, update-callback invocation)
lives in source files that are not part of this snapshot; those parts are
modelled from the specification and marked as such in their doc comments.
-/

namespace Wmbus

/-- The result kinds of detectMBusDevice, mirrored from the switch in
startUsingCommandline (main.cc lines 168-208). -/
inductive DeviceType where
  | im871a
  | amb8465
  | simulator
  | rtlwmbus
  | unknown
deriving DecidableEq

/-- Modelled from the spec: link modes C1, T1, N1, plus the ANY sentinel of
multi-mode adapters and an UNKNOWN value for an unset mode. -/
inductive LinkMode where
  | any
  | c1
  | t1
  | n1
  | unknown
deriving DecidableEq

/-- The meter-type enumeration handled by the switch in main.cc lines
245-281 (plus the UNKNOWN_METER case). -/
inductive MeterType where
  | multical21
  | flowiq3100
  | multical302
  | omnipower
  | supercom587
  | iperl
  | qcaloric
  | apator162
  | unknown
deriving DecidableEq

/-- The meter factory functions called by startUsingCommandline
(createMultical21, createMultical302, ...).  There is no dedicated factory
for flowiq3100: main.cc line 251 routes it to createMultical21. -/
inductive Factory where
  | multical21
  | multical302
  | omnipower
  | supercom587
  | iperl
  | qcaloric
  | apator162
deriving DecidableEq

/-- The two update callbacks registered on every configured meter
(main.cc lines 299-300): first the output printer, then the oneshot check. -/
inductive Callback where
  | outputPrint
  | oneshotCheckCb
deriving DecidableEq

/-- The fatal error() calls reachable in startUsingCommandline. -/
inductive FatalError where
  | logfileError
  | linkModeConflict
  | missingLinkMode
  | unknownMeterType
deriving DecidableEq

/-- Observable actions of the controller, both during startup and during
telegram processing. -/
inductive Act where
  | warnLogfile
  | warnNoDevice
  | exitProcess (code : Nat)
  | fatalError (e : FatalError)
  | openDevice (d : DeviceType)
  | setLinkMode (lm : LinkMode)
  | constructMeter (f : Factory) (name : String) (id : String) (key : String)
  | registerUpdateCb (name : String) (cb : Callback)
  | registerTelegramCb
  | simulate
  | waitForStop
  | printOutput (name : String)
  | stopManager
  | printId (id : String)
  | dropDecryptionFailed
deriving DecidableEq

/-- One (name, type, id, key) quadruple from the configuration. -/
structure MeterInfo where
  name : String
  type : String
  id : String
  key : String
deriving DecidableEq

/-- The slice of Configuration that startUsingCommandline reads for its
control flow. -/
structure Configuration where
  use_logfile : Bool
  daemon : Bool
  oneshot : Bool
  list_shell_envs : Bool
  link_mode_set : Bool
  link_mode : LinkMode
  meters : List MeterInfo
deriving DecidableEq

/-- Environment inputs of a startup run: what detectMBusDevice yields and
whether enableLogfile succeeds. -/
structure Env where
  device : DeviceType
  logfile_ok : Bool
deriving DecidableEq

/-- A constructed meter instance: factory, configuration tuple, the update
counter and the registered update callbacks in registration order. -/
structure Meter where
  factory : Factory
  name : String
  id : String
  key : String
  numUpdates : Nat
  callbacks : List Callback
deriving DecidableEq

/-- The controller state when the event loop is reached: the (possibly
inferred) link mode and the constructed meters. -/
structure StartState where
  link_mode_set : Bool
  link_mode : LinkMode
  meters : List Meter
deriving DecidableEq

/-- How a startup run ends: exit(c), a fatal error() call, or reaching
manager->waitForStop() with the given state. -/
inductive Outcome where
  | exited (code : Nat)
  | fatal (e : FatalError)
  | running (s : StartState)
deriving DecidableEq

/-- Modelled from the spec: the closed enumeration of supported meter-type
names (multical21, flowiq3100, multical302, omnipower, supercom587, iperl,
qcaloric, apator162); any other string is the unknown meter type. -/
def toMeterType (t : String) : MeterType :=
  if t = "multical21" then MeterType.multical21
  else if t = "flowiq3100" then MeterType.flowiq3100
  else if t = "multical302" then MeterType.multical302
  else if t = "omnipower" then MeterType.omnipower
  else if t = "supercom587" then MeterType.supercom587
  else if t = "iperl" then MeterType.iperl
  else if t = "qcaloric" then MeterType.qcaloric
  else if t = "apator162" then MeterType.apator162
  else MeterType.unknown

/-- Modelled from the spec: each meter type carries a required link mode
(the Kamstrup compact meters and qcaloric use C1, supercom587, iperl and
apator162 use T1); an unknown type has no known link mode. -/
def meterTypeLinkMode : MeterType → LinkMode
  | MeterType.multical21 => LinkMode.c1
  | MeterType.flowiq3100 => LinkMode.c1
  | MeterType.multical302 => LinkMode.c1
  | MeterType.omnipower => LinkMode.c1
  | MeterType.supercom587 => LinkMode.t1
  | MeterType.iperl => LinkMode.t1
  | MeterType.qcaloric => LinkMode.c1
  | MeterType.apator162 => LinkMode.t1
  | MeterType.unknown => LinkMode.unknown

/-- toMeterLinkMode as used in main.cc lines 215 and 218, taking the
configured type string. -/
def toMeterLinkMode (t : String) : LinkMode :=
  meterTypeLinkMode (toMeterType t)

/-- Which factory the meter-construction switch (main.cc lines 245-281)
calls for each meter type; UNKNOWN_METER has none (it is the error case).
flowiq3100 is constructed by createMultical21 (line 251). -/
def factoryOf : MeterType → Option Factory
  | MeterType.multical21 => some Factory.multical21
  | MeterType.flowiq3100 => some Factory.multical21
  | MeterType.multical302 => some Factory.multical302
  | MeterType.omnipower => some Factory.omnipower
  | MeterType.supercom587 => some Factory.supercom587
  | MeterType.iperl => some Factory.iperl
  | MeterType.qcaloric => some Factory.qcaloric
  | MeterType.apator162 => some Factory.apator162
  | MeterType.unknown => none

/-- Construction of a meter instance by a factory: the (name, id, key)
tuple is stored, the update count starts at zero, no callbacks yet. -/
def mkMeter (f : Factory) (m : MeterInfo) : Meter :=
  { factory := f, name := m.name, id := m.id, key := m.key,
    numUpdates := 0, callbacks := [] }

/-- The logfile handling at the top of startUsingCommandline (main.cc lines
128-138): on enableLogfile failure a daemon only warns, a foreground run
calls error().  The Bool tells whether the run is fatal here. -/
def logfileActions (config : Configuration) (env : Env) : List Act × Bool :=
  if config.use_logfile then
    if env.logfile_ok then ([], false)
    else if config.daemon then ([Act.warnLogfile], false)
    else ([Act.fatalError FatalError.logfileError], true)
  else ([], false)

/-- The link-mode inference loop of main.cc lines 213-223: the first meter
sets the link mode; a later meter with a different mode is a fatal conflict
unless the device is the RTL adapter. -/
def inferLoop (dev : DeviceType) (lmSet : Bool) (lm : LinkMode) :
    List MeterInfo → Except FatalError (Bool × LinkMode)
  | [] => Except.ok (lmSet, lm)
  | m :: rest =>
    if lmSet = false then
      inferLoop dev true (toMeterLinkMode m.type) rest
    else if toMeterLinkMode m.type ≠ lm ∧ dev ≠ DeviceType.rtlwmbus then
      Except.error FatalError.linkModeConflict
    else
      inferLoop dev lmSet lm rest

/-- main.cc lines 210-224: the loop runs only when the link mode was not
explicitly set. -/
def inferLinkMode (dev : DeviceType) (lmSet : Bool) (lm : LinkMode)
    (meters : List MeterInfo) : Except FatalError (Bool × LinkMode) :=
  if lmSet = false then inferLoop dev lmSet lm meters
  else Except.ok (lmSet, lm)

/-- The meter-construction loop of main.cc lines 243-301: for each
configured meter the factory selected by the type switch constructs the
instance (UNKNOWN_METER is a fatal error); with --shellenvs the process
exits 0 after the first meter; otherwise the output-print callback and then
the oneshot-check callback are registered. -/
def setupMeters (listShellEnvs : Bool) :
    List MeterInfo → Except (List Act × Outcome) (List Act × List Meter)
  | [] => Except.ok ([], [])
  | m :: rest =>
    match factoryOf (toMeterType m.type) with
    | none =>
      Except.error ([Act.fatalError FatalError.unknownMeterType],
        Outcome.fatal FatalError.unknownMeterType)
    | some f =>
      let acts := [Act.constructMeter f m.name m.id m.key]
      if listShellEnvs then
        Except.error (acts ++ [Act.exitProcess 0], Outcome.exited 0)
      else
        let meter := { mkMeter f m with
          callbacks := [Callback.outputPrint, Callback.oneshotCheckCb] }
        let acts := acts ++ [Act.registerUpdateCb m.name Callback.outputPrint,
          Act.registerUpdateCb m.name Callback.oneshotCheckCb]
        match setupMeters listShellEnvs rest with
        | Except.error (as, o) => Except.error (acts ++ as, o)
        | Except.ok (as, ms) => Except.ok (acts ++ as, meter :: ms)

/-- main.cc lines 242-316: either the meter-construction loop (when meters
are configured) or the discovery-mode telegram callback, then the simulator
kick-off when the device is the simulator, then manager->waitForStop(). -/
def startMeterPhase (config : Configuration) (acts : List Act) (d : DeviceType)
    (lmSet : Bool) (lm : LinkMode) : List Act × Outcome :=
  if config.meters.length > 0 then
    match setupMeters config.list_shell_envs config.meters with
    | Except.error (as, o) => (acts ++ as, o)
    | Except.ok (as, ms) =>
      let acts := acts ++ as
      let acts := if d = DeviceType.simulator then acts ++ [Act.simulate] else acts
      (acts ++ [Act.waitForStop],
        Outcome.running { link_mode_set := lmSet, link_mode := lm, meters := ms })
  else
    let acts := acts ++ [Act.registerTelegramCb]
    let acts := if d = DeviceType.simulator then acts ++ [Act.simulate] else acts
    (acts ++ [Act.waitForStop],
      Outcome.running { link_mode_set := lmSet, link_mode := lm, meters := [] })

/-- main.cc lines 210-316 with a successfully detected device d: link-mode
inference, the missing-link-mode check (fatal for single-mode adapters, but
the RTL adapter and the simulator are exempt), the setLinkMode call and the
meter phase. -/
def startWithDevice (config : Configuration) (la : List Act) (d : DeviceType) :
    List Act × Outcome :=
  let acts := la ++ [Act.openDevice d]
  match inferLinkMode d config.link_mode_set config.link_mode config.meters with
  | Except.error e => (acts ++ [Act.fatalError e], Outcome.fatal e)
  | Except.ok (lmSet, lm) =>
    if lmSet = false ∧ d ≠ DeviceType.rtlwmbus ∧ d ≠ DeviceType.simulator then
      (acts ++ [Act.fatalError FatalError.missingLinkMode],
        Outcome.fatal FatalError.missingLinkMode)
    else
      startMeterPhase config (acts ++ [Act.setLinkMode lm]) d lmSet lm

/-- startUsingCommandline (main.cc lines 126-321) as a trace of actions
plus an outcome: the logfile phase, the device switch (DEVICE_UNKNOWN warns
and exits 1), and for a recognized device the rest of the startup. -/
def startUsingCommandline (config : Configuration) (env : Env) :
    List Act × Outcome :=
  match logfileActions config env with
  | (la, true) => (la, Outcome.fatal FatalError.logfileError)
  | (la, false) =>
    match env.device with
    | DeviceType.unknown =>
      (la ++ [Act.warnNoDevice, Act.exitProcess 1], Outcome.exited 1)
    | d => startWithDevice config la d

/-- The loop of oneshotCheck (main.cc lines 327-329): return as soon as a
meter with zero updates is found, otherwise fall through to stop(). -/
def oneshotLoop : List Meter → Bool
  | [] => true
  | m :: rest => if m.numUpdates = 0 then false else oneshotLoop rest

/-- oneshotCheck (main.cc lines 323-333); the result tells whether
manager->stop() is called. -/
def oneshotCheck (config : Configuration) (meters : List Meter) : Bool :=
  if config.oneshot = false then false
  else oneshotLoop meters

/-- Modelled from the spec: the fields of a received telegram that the
dispatch pipeline consults — the meter id from the A-field, the packed
manufacturer code, whether the payload is encrypted and, when it is, the
key that decrypts it (meters.cc and wmbus.cc are not in this snapshot). -/
structure Telegram where
  id : String
  manufacturer : Nat
  encrypted : Bool
  key : String
deriving DecidableEq

/-- Modelled from the spec: decryption of an encrypted telegram fails when
the meter's configured key is wrong or absent (DecryptionFailed, spec
section 7). -/
def decryptionFails (m : Meter) (t : Telegram) : Bool :=
  t.encrypted && decide (m.key ≠ t.key)

/-- Modelled from the spec: the two callbacks registered in main.cc lines
299-300 — the output printer prints the reading, the oneshot-check callback
runs oneshotCheck over all configured meters and stops the manager when it
fires. -/
def runCallback (config : Configuration) (meters : List Meter) (m : Meter) :
    Callback → List Act
  | Callback.outputPrint => [Act.printOutput m.name]
  | Callback.oneshotCheckCb =>
    if oneshotCheck config meters then [Act.stopManager] else []

/-- Modelled from the spec: a handled telegram's update callbacks are
invoked in registration order (spec section 4.E step 3). -/
def runCallbacks (config : Configuration) (meters : List Meter) (m : Meter) :
    List Callback → List Act
  | [] => []
  | c :: cs => runCallback config meters m c ++ runCallbacks config meters m cs

/-- Modelled from the spec: the dispatcher routes a telegram to the first
matching meter in insertion order (the matcher predicate is a parameter);
a decryption failure drops the telegram without touching the update count,
otherwise the count is incremented and the callbacks run with the updated
meter list (spec sections 4.E and 7). -/
def dispatch (accepts : Meter → Telegram → Bool) (config : Configuration)
    (ms : List Meter) (t : Telegram) : List Meter × List Act :=
  match ms.findIdx? (fun m => accepts m t) with
  | none => (ms, [])
  | some i =>
    match ms[i]? with
    | none => (ms, [])
    | some m =>
      if decryptionFails m t then (ms, [Act.dropDecryptionFailed])
      else
        let m2 := { m with numUpdates := m.numUpdates + 1 }
        let ms2 := ms.set i m2
        (ms2, runCallbacks config ms2 m2 m2.callbacks)

/-- The discovery-mode callback registered in main.cc line 305: print the
telegram's identification. -/
def discoveryCallback (t : Telegram) : List Act :=
  [Act.printId t.id]

/-- Modelled from the spec: the event loop delivers the telegrams of one
endpoint in arrival order, invoking the registered telegram callback once
per telegram (spec section 5, Ordering). -/
def runEventLoopDiscovery : List Telegram → List Act
  | [] => []
  | t :: rest => discoveryCallback t ++ runEventLoopDiscovery rest

theorem oneshotLoop_eq_true_iff (ms : List Meter) :
    oneshotLoop ms = true ↔ ∀ m ∈ ms, 1 ≤ m.numUpdates := by
  induction ms with
  | nil => simp [oneshotLoop]
  | cons m rest ih =>
    by_cases h : m.numUpdates = 0
    · simp only [oneshotLoop, if_pos h, List.mem_cons]
      constructor
      · intro hfalse; exact absurd hfalse (by simp)
      · intro hall
        have := hall m (Or.inl rfl)
        omega
    · simp only [oneshotLoop, if_neg h, List.mem_cons, ih]
      constructor
      · intro hall x hx
        rcases hx with hx | hx
        · subst hx; omega
        · exact hall x hx
      · intro hall x hx
        exact hall x (Or.inr hx)

/-- Claim C1: the oneshot check calls stop() on the multiplexer if and only
if the oneshot flag is on and every configured meter's update count is at
least 1; in particular with oneshot off, or with some meter still at zero
updates, it returns without stopping. -/
theorem oneshotCheck_stop_iff (config : Configuration) (meters : List Meter) :
    oneshotCheck config meters = true ↔
      (config.oneshot = true ∧ ∀ m ∈ meters, 1 ≤ m.numUpdates) := by
  unfold oneshotCheck
  by_cases h : config.oneshot = false
  · simp [h]
  · have h1 : config.oneshot = true := by
      cases hc : config.oneshot
      · exact absurd hc h
      · rfl
    simp [h1, oneshotLoop_eq_true_iff]

/-- Whether an outcome is the event-loop state. -/
def isRunning : Outcome → Bool
  | Outcome.running _ => true
  | _ => false

theorem inferLoop_set (dev : DeviceType) (lm : LinkMode) (ms : List MeterInfo) :
    inferLoop dev true lm ms = Except.ok (true, lm) ∨
    inferLoop dev true lm ms = Except.error FatalError.linkModeConflict := by
  induction ms with
  | nil => left; rfl
  | cons m rest ih =>
    unfold inferLoop
    rw [if_neg (by simp)]
    by_cases h : toMeterLinkMode m.type ≠ lm ∧ dev ≠ DeviceType.rtlwmbus
    · rw [if_pos h]; right; rfl
    · rw [if_neg h]; exact ih

theorem inferLoop_rtl (lm : LinkMode) (ms : List MeterInfo) :
    inferLoop DeviceType.rtlwmbus true lm ms = Except.ok (true, lm) := by
  induction ms with
  | nil => rfl
  | cons m rest ih =>
    unfold inferLoop
    rw [if_neg (by simp), if_neg (by simp)]
    exact ih

theorem inferLoop_conflict (dev : DeviceType) (lm : LinkMode) (ms : List MeterInfo)
    (hdev : dev ≠ DeviceType.rtlwmbus)
    (h : ∃ m ∈ ms, toMeterLinkMode m.type ≠ lm) :
    inferLoop dev true lm ms = Except.error FatalError.linkModeConflict := by
  induction ms with
  | nil => simp at h
  | cons m rest ih =>
    unfold inferLoop
    rw [if_neg (by simp)]
    by_cases hm : toMeterLinkMode m.type ≠ lm
    · rw [if_pos ⟨hm, hdev⟩]
    · rw [if_neg (by tauto)]
      apply ih
      rcases h with ⟨x, hx, hne⟩
      rcases List.mem_cons.mp hx with h1 | h1
      · subst h1; exact absurd hne hm
      · exact ⟨x, h1, hne⟩

theorem inferLinkMode_false_cons (dev : DeviceType) (lm : LinkMode)
    (m : MeterInfo) (rest : List MeterInfo) :
    inferLinkMode dev false lm (m :: rest) =
      inferLoop dev true (toMeterLinkMode m.type) rest := by
  simp [inferLinkMode, inferLoop]

theorem inferLinkMode_false_nil (dev : DeviceType) (lm : LinkMode) :
    inferLinkMode dev false lm [] = Except.ok (false, lm) := by
  simp [inferLinkMode, inferLoop]

theorem setupMeters_error_not_running (lse : Bool) (ms : List MeterInfo) :
    ∀ as o, setupMeters lse ms = Except.error (as, o) → isRunning o = false := by
  induction ms with
  | nil => intro as o h; simp [setupMeters] at h
  | cons m rest ih =>
    intro as o h
    unfold setupMeters at h
    split at h
    · simp only [Except.error.injEq, Prod.mk.injEq] at h
      rcases h with ⟨-, ho⟩
      subst ho; rfl
    · split at h
      · simp only [Except.error.injEq, Prod.mk.injEq] at h
        rcases h with ⟨-, ho⟩
        subst ho; rfl
      · split at h
        · rename_i as2 o2 heq
          simp only [Except.error.injEq, Prod.mk.injEq] at h
          rcases h with ⟨-, ho⟩
          subst ho
          exact ih as2 o2 heq
        · simp at h

theorem setupMeters_no_waitForStop (lse : Bool) (ms : List MeterInfo) :
    (∀ as o, setupMeters lse ms = Except.error (as, o) → Act.waitForStop ∉ as) ∧
    (∀ as l, setupMeters lse ms = Except.ok (as, l) → Act.waitForStop ∉ as) := by
  induction ms with
  | nil =>
    constructor
    · intro as o h; simp [setupMeters] at h
    · intro as l h
      simp only [setupMeters, Except.ok.injEq, Prod.mk.injEq] at h
      rcases h with ⟨ha, -⟩
      subst ha; simp
  | cons m rest ih =>
    constructor
    · intro as o h
      unfold setupMeters at h
      split at h
      · simp only [Except.error.injEq, Prod.mk.injEq] at h
        rcases h with ⟨ha, -⟩
        subst ha; simp
      · split at h
        · simp only [Except.error.injEq, Prod.mk.injEq] at h
          rcases h with ⟨ha, -⟩
          subst ha; simp
        · split at h
          · rename_i as2 o2 heq
            simp only [Except.error.injEq, Prod.mk.injEq] at h
            rcases h with ⟨ha, -⟩
            subst ha
            have := ih.1 as2 o2 heq
            simp_all
          · simp at h
    · intro as l h
      unfold setupMeters at h
      split at h
      · simp at h
      · split at h
        · simp at h
        · split at h
          · simp at h
          · rename_i as2 l2 heq
            simp only [Except.ok.injEq, Prod.mk.injEq] at h
            rcases h with ⟨ha, -⟩
            subst ha
            have := ih.2 as2 l2 heq
            simp_all

theorem setupMeters_callbacks (lse : Bool) (ms : List MeterInfo) :
    ∀ as l, setupMeters lse ms = Except.ok (as, l) →
      ∀ m ∈ l, m.callbacks = [Callback.outputPrint, Callback.oneshotCheckCb] := by
  induction ms with
  | nil =>
    intro as l h
    simp only [setupMeters, Except.ok.injEq, Prod.mk.injEq] at h
    rcases h with ⟨-, hl⟩
    subst hl; simp
  | cons m rest ih =>
    intro as l h
    unfold setupMeters at h
    split at h
    · simp at h
    · split at h
      · simp at h
      · split at h
        · simp at h
        · rename_i as2 l2 heq
          simp only [Except.ok.injEq, Prod.mk.injEq] at h
          rcases h with ⟨-, hl⟩
          subst hl
          intro x hx
          rcases List.mem_cons.mp hx with h1 | h1
          · subst h1; rfl
          · exact ih as2 l2 heq x h1

theorem setupMeters_ok_of_known (ms : List MeterInfo)
    (h : ∀ m ∈ ms, factoryOf (toMeterType m.type) ≠ none) :
    ∃ as l, setupMeters false ms = Except.ok (as, l) := by
  induction ms with
  | nil => exact ⟨[], [], rfl⟩
  | cons m rest ih =>
    have hm := h m (List.mem_cons_self m rest)
    rcases hf : factoryOf (toMeterType m.type) with _ | f
    · exact absurd hf hm
    · have hrest : ∀ x ∈ rest, factoryOf (toMeterType x.type) ≠ none :=
        fun x hx => h x (List.mem_cons_of_mem m hx)
      rcases ih hrest with ⟨as, l, hok⟩
      refine ⟨([Act.constructMeter f m.name m.id m.key] ++
          [Act.registerUpdateCb m.name Callback.outputPrint,
           Act.registerUpdateCb m.name Callback.oneshotCheckCb]) ++ as,
        { mkMeter f m with
            callbacks := [Callback.outputPrint, Callback.oneshotCheckCb] } :: l, ?_⟩
      unfold setupMeters
      rw [hf]
      simp [hok]

theorem startMeterPhase_running (config : Configuration) (acts : List Act)
    (d : DeviceType) (lmSet : Bool) (lm : LinkMode) (s : StartState)
    (h : (startMeterPhase config acts d lmSet lm).2 = Outcome.running s) :
    s.link_mode_set = lmSet ∧ s.link_mode = lm ∧
    ∀ m ∈ s.meters, m.callbacks = [Callback.outputPrint, Callback.oneshotCheckCb] := by
  unfold startMeterPhase at h
  split at h
  · split at h
    · rename_i as o heq
      simp only at h
      have := setupMeters_error_not_running config.list_shell_envs config.meters as o heq
      rw [h] at this
      simp [isRunning] at this
    · rename_i as l heq
      simp only [Outcome.running.injEq] at h
      subst h
      exact ⟨rfl, rfl, setupMeters_callbacks config.list_shell_envs config.meters as l heq⟩
  · simp only [Outcome.running.injEq] at h
    subst h
    exact ⟨rfl, rfl, by simp⟩

theorem startMeterPhase_mem_of_mem (config : Configuration) (acts : List Act)
    (d : DeviceType) (lmSet : Bool) (lm : LinkMode) (a : Act) (ha : a ∈ acts) :
    a ∈ (startMeterPhase config acts d lmSet lm).1 := by
  unfold startMeterPhase
  split
  · split
    · simp [List.mem_append, ha]
    · split <;> simp [List.mem_append, ha]
  · split <;> simp [List.mem_append, ha]

theorem startMeterPhase_empty (config : Configuration) (acts : List Act)
    (d : DeviceType) (lmSet : Bool) (lm : LinkMode) (h : config.meters = []) :
    (startMeterPhase config acts d lmSet lm).2 =
      Outcome.running { link_mode_set := lmSet, link_mode := lm, meters := [] } ∧
    Act.registerTelegramCb ∈ (startMeterPhase config acts d lmSet lm).1 := by
  unfold startMeterPhase
  rw [h]
  rw [if_neg (by simp)]
  constructor
  · simp
  · split <;> simp [List.mem_append]

theorem startMeterPhase_ok (config : Configuration) (acts : List Act)
    (d : DeviceType) (lmSet : Bool) (lm : LinkMode) (as : List Act) (l : List Meter)
    (hne : config.meters ≠ [])
    (hok : setupMeters config.list_shell_envs config.meters = Except.ok (as, l)) :
    (startMeterPhase config acts d lmSet lm).2 =
      Outcome.running { link_mode_set := lmSet, link_mode := lm, meters := l } := by
  unfold startMeterPhase
  rw [if_pos (List.length_pos.mpr hne), hok]

theorem startMeterPhase_no_wait (config : Configuration) (acts : List Act)
    (d : DeviceType) (lmSet : Bool) (lm : LinkMode)
    (hacts : Act.waitForStop ∉ acts)
    (hnr : isRunning (startMeterPhase config acts d lmSet lm).2 = false) :
    Act.waitForStop ∉ (startMeterPhase config acts d lmSet lm).1 := by
  unfold startMeterPhase at hnr ⊢
  by_cases hlen : config.meters.length > 0
  · rw [if_pos hlen] at hnr ⊢
    rcases hset : setupMeters config.list_shell_envs config.meters with ⟨as, o⟩ | ⟨as, l⟩
    · have := (setupMeters_no_waitForStop config.list_shell_envs config.meters).1 as o hset
      simp [List.mem_append, hacts, this]
    · rw [hset] at hnr
      simp [isRunning] at hnr
  · rw [if_neg hlen] at hnr
    simp [isRunning] at hnr

theorem start_eq_withDevice (config : Configuration) (env : Env) (la : List Act)
    (d : DeviceType) (hla : logfileActions config env = (la, false))
    (hd : env.device = d) (hne : d ≠ DeviceType.unknown) :
    startUsingCommandline config env = startWithDevice config la d := by
  unfold startUsingCommandline
  rw [hla, hd]
  cases d
  · rfl
  · rfl
  · rfl
  · rfl
  · exact absurd rfl hne

theorem start_logfile_fatal (config : Configuration) (env : Env) (la : List Act)
    (hla : logfileActions config env = (la, true)) :
    startUsingCommandline config env = (la, Outcome.fatal FatalError.logfileError) := by
  unfold startUsingCommandline
  rw [hla]

theorem start_device_unknown (config : Configuration) (env : Env) (la : List Act)
    (hla : logfileActions config env = (la, false))
    (hd : env.device = DeviceType.unknown) :
    startUsingCommandline config env =
      (la ++ [Act.warnNoDevice, Act.exitProcess 1], Outcome.exited 1) := by
  unfold startUsingCommandline
  rw [hla, hd]

theorem startWithDevice_infer_err (config : Configuration) (la : List Act)
    (d : DeviceType) (e : FatalError)
    (h : inferLinkMode d config.link_mode_set config.link_mode config.meters =
      Except.error e) :
    startWithDevice config la d =
      ((la ++ [Act.openDevice d]) ++ [Act.fatalError e], Outcome.fatal e) := by
  unfold startWithDevice
  rw [h]

theorem startWithDevice_infer_ok (config : Configuration) (la : List Act)
    (d : DeviceType) (lmSet : Bool) (lm : LinkMode)
    (h : inferLinkMode d config.link_mode_set config.link_mode config.meters =
      Except.ok (lmSet, lm))
    (hcond : ¬(lmSet = false ∧ d ≠ DeviceType.rtlwmbus ∧ d ≠ DeviceType.simulator)) :
    startWithDevice config la d =
      startMeterPhase config ((la ++ [Act.openDevice d]) ++ [Act.setLinkMode lm])
        d lmSet lm := by
  unfold startWithDevice
  rw [h]
  dsimp only
  rw [if_neg hcond]

theorem startWithDevice_missing (config : Configuration) (la : List Act)
    (d : DeviceType) (lm : LinkMode)
    (h : inferLinkMode d config.link_mode_set config.link_mode config.meters =
      Except.ok (false, lm))
    (hd1 : d ≠ DeviceType.rtlwmbus) (hd2 : d ≠ DeviceType.simulator) :
    startWithDevice config la d =
      ((la ++ [Act.openDevice d]) ++ [Act.fatalError FatalError.missingLinkMode],
        Outcome.fatal FatalError.missingLinkMode) := by
  unfold startWithDevice
  rw [h]
  dsimp only
  rw [if_pos ⟨rfl, hd1, hd2⟩]

theorem logfileActions_mem (config : Configuration) (env : Env) (a : Act)
    (h : a ∈ (logfileActions config env).1) :
    a = Act.warnLogfile ∨ a = Act.fatalError FatalError.logfileError := by
  unfold logfileActions at h
  split_ifs at h <;> simp_all

/-- Claim C2: when device detection yields DEVICE_UNKNOWN (and the run was
not already aborted by a logfile failure before detection), the program
warns and exits with code 1 before any meter is constructed and before the
event loop is entered. -/
theorem unknown_device_exit1 (config : Configuration) (env : Env)
    (hdev : env.device = DeviceType.unknown)
    (hlog : (logfileActions config env).2 = false) :
    (startUsingCommandline config env).2 = Outcome.exited 1 ∧
    Act.warnNoDevice ∈ (startUsingCommandline config env).1 ∧
    (∀ f n i k, Act.constructMeter f n i k ∉ (startUsingCommandline config env).1) ∧
    Act.waitForStop ∉ (startUsingCommandline config env).1 := by
  rcases hla : logfileActions config env with ⟨la, b⟩
  have hb : b = false := by rw [hla] at hlog; exact hlog
  subst hb
  have hstart : startUsingCommandline config env =
      (la ++ [Act.warnNoDevice, Act.exitProcess 1], Outcome.exited 1) := by
    unfold startUsingCommandline
    rw [hla, hdev]
  refine ⟨by rw [hstart], by rw [hstart]; simp, ?_, ?_⟩
  · intro f n i k hmem
    rw [hstart] at hmem
    simp only [List.mem_append, List.mem_cons, List.mem_singleton] at hmem
    rcases hmem with hmem | hmem
    · have := logfileActions_mem config env _ (by rw [hla]; exact hmem)
      rcases this with h | h <;> exact absurd h (by simp)
    · rcases hmem with h | h | h <;> simp_all
  · intro hmem
    rw [hstart] at hmem
    simp only [List.mem_append, List.mem_cons, List.mem_singleton] at hmem
    rcases hmem with hmem | hmem
    · have := logfileActions_mem config env _ (by rw [hla]; exact hmem)
      rcases this with h | h <;> exact absurd h (by simp)
    · rcases hmem with h | h | h <;> simp_all

theorem unknown_device_exit1_witness :
    ((logfileActions
        { use_logfile := false, daemon := false, oneshot := false,
          list_shell_envs := false, link_mode_set := false,
          link_mode := LinkMode.unknown, meters := [] }
        { device := DeviceType.unknown, logfile_ok := true }).2 = false) ∧
    (startUsingCommandline
        { use_logfile := false, daemon := false, oneshot := false,
          list_shell_envs := false, link_mode_set := false,
          link_mode := LinkMode.unknown, meters := [] }
        { device := DeviceType.unknown, logfile_ok := true }).2 = Outcome.exited 1 :=
  ⟨by decide,
   (unknown_device_exit1
      { use_logfile := false, daemon := false, oneshot := false,
        list_shell_envs := false, link_mode_set := false,
        link_mode := LinkMode.unknown, meters := [] }
      { device := DeviceType.unknown, logfile_ok := true }
      rfl (by decide)).1⟩

/-- Claim C9: a meter configured with type flowiq3100 is constructed by the
same factory as one of type multical21 (createMultical21, main.cc lines
247 and 251), so the constructed meter instances for equal (name, id, key)
are equal and all their downstream matching and decoding behaviour — a
function of the instance — is identical. -/
theorem flowiq3100_same_factory_as_multical21 :
    factoryOf (toMeterType "flowiq3100") = some Factory.multical21 ∧
    factoryOf (toMeterType "multical21") = some Factory.multical21 ∧
    ∀ (n i k : String) (lse : Bool) (rest : List MeterInfo),
      setupMeters lse ({ name := n, type := "flowiq3100", id := i, key := k } :: rest) =
        setupMeters lse ({ name := n, type := "multical21", id := i, key := k } :: rest) := by
  refine ⟨by decide, by decide, ?_⟩
  intro n i k lse rest
  have h1 : toMeterType "flowiq3100" = MeterType.flowiq3100 := by decide
  have h2 : toMeterType "multical21" = MeterType.multical21 := by decide
  simp [setupMeters, h1, h2, factoryOf, mkMeter]

/-- Whether an action is a setLinkMode call. -/
def isSetLinkMode : Act → Bool
  | Act.setLinkMode _ => true
  | _ => false

/-- Claim C3, counterexample: with no explicit link mode and two configured
meters whose types require different link modes (supercom587 is T1,
multical21 is C1) on the im871a device, startup aborts with the link-mode
conflict error and setLinkMode is never called, so the mode inferred from
the meter types is not applied to the wmbus device. -/
theorem link_mode_not_applied_cex :
    (startUsingCommandline
        { use_logfile := false, daemon := false, oneshot := false,
          list_shell_envs := false, link_mode_set := false,
          link_mode := LinkMode.unknown,
          meters := [{ name := "a", type := "supercom587", id := "11111111", key := "" },
                     { name := "b", type := "multical21", id := "22222222", key := "" }] }
        { device := DeviceType.im871a, logfile_ok := true }).2 =
      Outcome.fatal FatalError.linkModeConflict ∧
    ((startUsingCommandline
        { use_logfile := false, daemon := false, oneshot := false,
          list_shell_envs := false, link_mode_set := false,
          link_mode := LinkMode.unknown,
          meters := [{ name := "a", type := "supercom587", id := "11111111", key := "" },
                     { name := "b", type := "multical21", id := "22222222", key := "" }] }
        { device := DeviceType.im871a, logfile_ok := true }).1.any isSetLinkMode) = false := by
  decide

/-- Claim C3 (amended): with no explicitly set link mode and at least one
configured meter, the link mode is inferred from the configured meter
types as the link mode of the first meter in the list; whenever startup
reaches the event loop (does not abort fatally before that), this inferred
mode is the one applied to the wmbus device via setLinkMode. -/
theorem link_mode_inferred_from_first (config : Configuration) (env : Env)
    (s : StartState) (m0 : MeterInfo) (rest : List MeterInfo)
    (hset : config.link_mode_set = false)
    (hm : config.meters = m0 :: rest)
    (hrun : (startUsingCommandline config env).2 = Outcome.running s) :
    s.link_mode = toMeterLinkMode m0.type ∧
    Act.setLinkMode (toMeterLinkMode m0.type) ∈ (startUsingCommandline config env).1 := by
  rcases hla : logfileActions config env with ⟨la, b⟩
  cases b with
  | true =>
    rw [start_logfile_fatal config env la hla] at hrun
    simp at hrun
  | false =>
    by_cases hdu : env.device = DeviceType.unknown
    · rw [start_device_unknown config env la hla hdu] at hrun
      simp at hrun
    · have heq := start_eq_withDevice config env la env.device hla rfl hdu
      have hinf : inferLinkMode env.device config.link_mode_set config.link_mode
          config.meters = inferLoop env.device true (toMeterLinkMode m0.type) rest := by
        rw [hset, hm]
        exact inferLinkMode_false_cons env.device config.link_mode m0 rest
      rcases inferLoop_set env.device (toMeterLinkMode m0.type) rest with hok | herr
      · have heq2 := startWithDevice_infer_ok config la env.device true
          (toMeterLinkMode m0.type) (by rw [hinf]; exact hok) (by simp)
        rw [heq, heq2] at hrun ⊢
        have hr := startMeterPhase_running _ _ _ _ _ s hrun
        exact ⟨hr.2.1, startMeterPhase_mem_of_mem _ _ _ _ _ _ (by simp)⟩
      · have heq2 := startWithDevice_infer_err config la env.device
          FatalError.linkModeConflict (by rw [hinf]; exact herr)
        rw [heq, heq2] at hrun
        simp at hrun

theorem link_mode_inferred_from_first_witness :
    StartState.link_mode
        { link_mode_set := true, link_mode := LinkMode.c1,
          meters := [{ factory := Factory.multical21, name := "w", id := "12345678",
                       key := "", numUpdates := 0,
                       callbacks := [Callback.outputPrint, Callback.oneshotCheckCb] }] } =
      toMeterLinkMode "multical21" ∧
    Act.setLinkMode (toMeterLinkMode "multical21") ∈
      (startUsingCommandline
        { use_logfile := false, daemon := false, oneshot := false,
          list_shell_envs := false, link_mode_set := false,
          link_mode := LinkMode.unknown,
          meters := [{ name := "w", type := "multical21", id := "12345678", key := "" }] }
        { device := DeviceType.im871a, logfile_ok := true }).1 :=
  link_mode_inferred_from_first
    { use_logfile := false, daemon := false, oneshot := false,
      list_shell_envs := false, link_mode_set := false,
      link_mode := LinkMode.unknown,
      meters := [{ name := "w", type := "multical21", id := "12345678", key := "" }] }
    { device := DeviceType.im871a, logfile_ok := true }
    { link_mode_set := true, link_mode := LinkMode.c1,
      meters := [{ factory := Factory.multical21, name := "w", id := "12345678",
                   key := "", numUpdates := 0,
                   callbacks := [Callback.outputPrint, Callback.oneshotCheckCb] }] }
    { name := "w", type := "multical21", id := "12345678", key := "" } []
    rfl rfl (by decide)

/-- Claim C4: with two or more configured meters whose types require
different link modes and no explicitly set link mode, startup on a non-RTL
device aborts with the fatal link-mode conflict error, while on the RTL
device the mixed modes are accepted and startup reaches the event loop
(assuming the rest of the configuration is otherwise valid: recognized
meter types, no --shellenvs exit, no logfile failure). -/
theorem link_mode_conflict_by_device (config : Configuration) (env : Env)
    (hset : config.link_mode_set = false)
    (hconf : ∃ m1 ∈ config.meters, ∃ m2 ∈ config.meters,
      toMeterLinkMode m1.type ≠ toMeterLinkMode m2.type)
    (hlog : (logfileActions config env).2 = false)
    (hknown : ∀ m ∈ config.meters, factoryOf (toMeterType m.type) ≠ none)
    (hlse : config.list_shell_envs = false)
    (hdev : env.device ≠ DeviceType.unknown) :
    (env.device ≠ DeviceType.rtlwmbus →
      (startUsingCommandline config env).2 = Outcome.fatal FatalError.linkModeConflict) ∧
    (env.device = DeviceType.rtlwmbus →
      ∃ s, (startUsingCommandline config env).2 = Outcome.running s) := by
  rcases hconf with ⟨m1, hm1, m2, hm2, hne12⟩
  rcases hmeters : config.meters with _ | ⟨m0, rest⟩
  · rw [hmeters] at hm1; simp at hm1
  · rw [hmeters] at hm1 hm2
    have hrest : ∃ m ∈ rest, toMeterLinkMode m.type ≠ toMeterLinkMode m0.type := by
      rcases List.mem_cons.mp hm1 with h1 | h1 <;> rcases List.mem_cons.mp hm2 with h2 | h2
      · subst h1; subst h2; exact absurd rfl hne12
      · subst h1; exact ⟨m2, h2, fun h => hne12 h.symm⟩
      · subst h2; exact ⟨m1, h1, hne12⟩
      · by_cases h0 : toMeterLinkMode m1.type = toMeterLinkMode m0.type
        · exact ⟨m2, h2, fun h => hne12 (h0.trans h.symm)⟩
        · exact ⟨m1, h1, h0⟩
    rcases hla : logfileActions config env with ⟨la, b⟩
    cases b with
    | true => rw [hla] at hlog; simp at hlog
    | false =>
      have heq := start_eq_withDevice config env la env.device hla rfl hdev
      constructor
      · intro hrtl
        have herr : inferLinkMode env.device config.link_mode_set config.link_mode
            config.meters = Except.error FatalError.linkModeConflict := by
          rw [hset, hmeters, inferLinkMode_false_cons]
          exact inferLoop_conflict env.device (toMeterLinkMode m0.type) rest hrtl hrest
        rw [heq, startWithDevice_infer_err config la env.device _ herr]
      · intro hrtl
        have hok : inferLinkMode env.device config.link_mode_set config.link_mode
            config.meters = Except.ok (true, toMeterLinkMode m0.type) := by
          rw [hset, hmeters, inferLinkMode_false_cons, hrtl]
          exact inferLoop_rtl (toMeterLinkMode m0.type) rest
        rw [heq, startWithDevice_infer_ok config la env.device true _ hok (by simp)]
        rcases setupMeters_ok_of_known config.meters hknown with ⟨as, l, hokm⟩
        refine ⟨_, startMeterPhase_ok config _ env.device true (toMeterLinkMode m0.type)
          as l (by rw [hmeters]; simp) ?_⟩
        rw [hlse]; exact hokm

theorem link_mode_conflict_by_device_witness :
    (startUsingCommandline
        { use_logfile := false, daemon := false, oneshot := false,
          list_shell_envs := false, link_mode_set := false,
          link_mode := LinkMode.unknown,
          meters := [{ name := "a", type := "supercom587", id := "11111111", key := "" },
                     { name := "b", type := "multical21", id := "22222222", key := "" }] }
        { device := DeviceType.im871a, logfile_ok := true }).2 =
      Outcome.fatal FatalError.linkModeConflict ∧
    ∃ s, (startUsingCommandline
        { use_logfile := false, daemon := false, oneshot := false,
          list_shell_envs := false, link_mode_set := false,
          link_mode := LinkMode.unknown,
          meters := [{ name := "a", type := "supercom587", id := "11111111", key := "" },
                     { name := "b", type := "multical21", id := "22222222", key := "" }] }
        { device := DeviceType.rtlwmbus, logfile_ok := true }).2 = Outcome.running s :=
  ⟨(link_mode_conflict_by_device
      { use_logfile := false, daemon := false, oneshot := false,
        list_shell_envs := false, link_mode_set := false,
        link_mode := LinkMode.unknown,
        meters := [{ name := "a", type := "supercom587", id := "11111111", key := "" },
                   { name := "b", type := "multical21", id := "22222222", key := "" }] }
      { device := DeviceType.im871a, logfile_ok := true }
      rfl (by decide) (by decide) (by decide) rfl (by decide)).1 (by decide),
   (link_mode_conflict_by_device
      { use_logfile := false, daemon := false, oneshot := false,
        list_shell_envs := false, link_mode_set := false,
        link_mode := LinkMode.unknown,
        meters := [{ name := "a", type := "supercom587", id := "11111111", key := "" },
                   { name := "b", type := "multical21", id := "22222222", key := "" }] }
      { device := DeviceType.rtlwmbus, logfile_ok := true }
      rfl (by decide) (by decide) (by decide) rfl (by decide)).2 rfl⟩

/-- Claim C10: with no meters configured and no explicitly set link mode, a
detected im871a or amb8465 device makes startup abort with the fatal
missing-link-mode error (demanding --c1 or --t1), while the RTL adapter or
the simulator start successfully and reach the event loop. -/
theorem no_meters_requires_link_mode (config : Configuration) (env : Env)
    (hset : config.link_mode_set = false)
    (hm : config.meters = [])
    (hlog : (logfileActions config env).2 = false) :
    ((env.device = DeviceType.im871a ∨ env.device = DeviceType.amb8465) →
      (startUsingCommandline config env).2 = Outcome.fatal FatalError.missingLinkMode) ∧
    ((env.device = DeviceType.rtlwmbus ∨ env.device = DeviceType.simulator) →
      ∃ s, (startUsingCommandline config env).2 = Outcome.running s) := by
  rcases hla : logfileActions config env with ⟨la, b⟩
  cases b with
  | true => rw [hla] at hlog; simp at hlog
  | false =>
    have hinf : inferLinkMode env.device config.link_mode_set config.link_mode
        config.meters = Except.ok (false, config.link_mode) := by
      rw [hset, hm]; exact inferLinkMode_false_nil env.device config.link_mode
    constructor
    · intro hd
      have hne : env.device ≠ DeviceType.unknown := by rcases hd with h | h <;> simp [h]
      have heq := start_eq_withDevice config env la env.device hla rfl hne
      have h1 : env.device ≠ DeviceType.rtlwmbus := by rcases hd with h | h <;> simp [h]
      have h2 : env.device ≠ DeviceType.simulator := by rcases hd with h | h <;> simp [h]
      rw [heq, startWithDevice_missing config la env.device config.link_mode hinf h1 h2]
    · intro hd
      have hne : env.device ≠ DeviceType.unknown := by rcases hd with h | h <;> simp [h]
      have heq := start_eq_withDevice config env la env.device hla rfl hne
      have hcond : ¬(false = false ∧ env.device ≠ DeviceType.rtlwmbus ∧
          env.device ≠ DeviceType.simulator) := by
        rcases hd with h | h <;> simp [h]
      rw [heq, startWithDevice_infer_ok config la env.device false config.link_mode hinf hcond]
      exact ⟨_, (startMeterPhase_empty config _ env.device false config.link_mode hm).1⟩

theorem no_meters_requires_link_mode_witness :
    (startUsingCommandline
        { use_logfile := false, daemon := false, oneshot := false,
          list_shell_envs := false, link_mode_set := false,
          link_mode := LinkMode.unknown, meters := [] }
        { device := DeviceType.im871a, logfile_ok := true }).2 =
      Outcome.fatal FatalError.missingLinkMode ∧
    ∃ s, (startUsingCommandline
        { use_logfile := false, daemon := false, oneshot := false,
          list_shell_envs := false, link_mode_set := false,
          link_mode := LinkMode.unknown, meters := [] }
        { device := DeviceType.rtlwmbus, logfile_ok := true }).2 = Outcome.running s :=
  ⟨(no_meters_requires_link_mode
      { use_logfile := false, daemon := false, oneshot := false,
        list_shell_envs := false, link_mode_set := false,
        link_mode := LinkMode.unknown, meters := [] }
      { device := DeviceType.im871a, logfile_ok := true }
      rfl rfl (by decide)).1 (Or.inl rfl),
   (no_meters_requires_link_mode
      { use_logfile := false, daemon := false, oneshot := false,
        list_shell_envs := false, link_mode_set := false,
        link_mode := LinkMode.unknown, meters := [] }
      { device := DeviceType.rtlwmbus, logfile_ok := true }
      rfl rfl (by decide)).2 (Or.inl rfl)⟩

/-- Claim C5: in a run with no configured meters that reaches the event
loop, the controller registers the discovery telegram callback on the wmbus
device (main.cc line 305), and the delivery of any sequence of telegrams
produces exactly one id-print line per telegram, in arrival order. -/
theorem discovery_mode_prints_ids (config : Configuration) (env : Env)
    (s : StartState) (hm : config.meters = [])
    (hrun : (startUsingCommandline config env).2 = Outcome.running s) :
    Act.registerTelegramCb ∈ (startUsingCommandline config env).1 ∧
    ∀ ts : List Telegram,
      runEventLoopDiscovery ts = ts.map (fun t => Act.printId t.id) := by
  have hdisc : ∀ ts : List Telegram,
      runEventLoopDiscovery ts = ts.map (fun t => Act.printId t.id) := by
    intro ts
    induction ts with
    | nil => rfl
    | cons t rest ih => simp [runEventLoopDiscovery, discoveryCallback, ih]
  rcases hla : logfileActions config env with ⟨la, b⟩
  cases b with
  | true => rw [start_logfile_fatal config env la hla] at hrun; simp at hrun
  | false =>
    by_cases hdu : env.device = DeviceType.unknown
    · rw [start_device_unknown config env la hla hdu] at hrun; simp at hrun
    · have heq := start_eq_withDevice config env la env.device hla rfl hdu
      have hinf : ∃ lmSet lm, inferLinkMode env.device config.link_mode_set
          config.link_mode config.meters = Except.ok (lmSet, lm) := by
        cases hls : config.link_mode_set
        · exact ⟨false, config.link_mode, by
            rw [hm]; exact inferLinkMode_false_nil env.device config.link_mode⟩
        · exact ⟨true, config.link_mode, by simp [inferLinkMode]⟩
      rcases hinf with ⟨lmSet, lm, hinfok⟩
      by_cases hcond : lmSet = false ∧ env.device ≠ DeviceType.rtlwmbus ∧
          env.device ≠ DeviceType.simulator
      · rcases hcond with ⟨hlmf, hc1, hc2⟩
        subst hlmf
        rw [heq, startWithDevice_missing config la env.device lm hinfok hc1 hc2] at hrun
        simp at hrun
      · rw [heq, startWithDevice_infer_ok config la env.device lmSet lm hinfok hcond]
        exact ⟨(startMeterPhase_empty config _ env.device lmSet lm hm).2, hdisc⟩

theorem discovery_mode_prints_ids_witness :
    Act.registerTelegramCb ∈
      (startUsingCommandline
        { use_logfile := false, daemon := false, oneshot := false,
          list_shell_envs := false, link_mode_set := true,
          link_mode := LinkMode.c1, meters := [] }
        { device := DeviceType.im871a, logfile_ok := true }).1 ∧
    runEventLoopDiscovery
        [{ id := "11111111", manufacturer := 0, encrypted := false, key := "" },
         { id := "22222222", manufacturer := 0, encrypted := false, key := "" },
         { id := "33333333", manufacturer := 0, encrypted := false, key := "" }] =
      [Act.printId "11111111", Act.printId "22222222", Act.printId "33333333"] :=
  ⟨(discovery_mode_prints_ids
      { use_logfile := false, daemon := false, oneshot := false,
        list_shell_envs := false, link_mode_set := true,
        link_mode := LinkMode.c1, meters := [] }
      { device := DeviceType.im871a, logfile_ok := true }
      { link_mode_set := true, link_mode := LinkMode.c1, meters := [] }
      rfl (by decide)).1,
   (discovery_mode_prints_ids
      { use_logfile := false, daemon := false, oneshot := false,
        list_shell_envs := false, link_mode_set := true,
        link_mode := LinkMode.c1, meters := [] }
      { device := DeviceType.im871a, logfile_ok := true }
      { link_mode_set := true, link_mode := LinkMode.c1, meters := [] }
      rfl (by decide)).2
    [{ id := "11111111", manufacturer := 0, encrypted := false, key := "" },
     { id := "22222222", manufacturer := 0, encrypted := false, key := "" },
     { id := "33333333", manufacturer := 0, encrypted := false, key := "" }]⟩

theorem start_running_callbacks (config : Configuration) (env : Env) (s : StartState)
    (hrun : (startUsingCommandline config env).2 = Outcome.running s) :
    ∀ m ∈ s.meters, m.callbacks = [Callback.outputPrint, Callback.oneshotCheckCb] := by
  rcases hla : logfileActions config env with ⟨la, b⟩
  cases b with
  | true => rw [start_logfile_fatal config env la hla] at hrun; simp at hrun
  | false =>
    by_cases hdu : env.device = DeviceType.unknown
    · rw [start_device_unknown config env la hla hdu] at hrun; simp at hrun
    · have heq := start_eq_withDevice config env la env.device hla rfl hdu
      rcases h : inferLinkMode env.device config.link_mode_set config.link_mode
          config.meters with e | ⟨lmSet, lm⟩
      · rw [heq, startWithDevice_infer_err config la env.device e h] at hrun
        simp at hrun
      · by_cases hcond : lmSet = false ∧ env.device ≠ DeviceType.rtlwmbus ∧
            env.device ≠ DeviceType.simulator
        · rcases hcond with ⟨hlmf, hc1, hc2⟩
          subst hlmf
          rw [heq, startWithDevice_missing config la env.device lm h hc1 hc2] at hrun
          simp at hrun
        · rw [heq, startWithDevice_infer_ok config la env.device lmSet lm h hcond] at hrun
          exact (startMeterPhase_running _ _ _ _ _ s hrun).2.2

/-- Claim C6: in every run that reaches the event loop, each constructed
meter carries its update callbacks in registration order — the output-print
callback first, the oneshot-check callback second (main.cc lines 299-300) —
and on a handled (non-dropped) telegram the dispatched event list invokes
them in that order: the output print happens before any stop() the oneshot
check may issue. -/
theorem output_print_before_oneshot_stop (config : Configuration) (env : Env)
    (s : StartState)
    (hrun : (startUsingCommandline config env).2 = Outcome.running s) :
    (∀ m ∈ s.meters, m.callbacks = [Callback.outputPrint, Callback.oneshotCheckCb]) ∧
    (∀ (accepts : Meter → Telegram → Bool) (ms : List Meter) (t : Telegram)
        (i : Nat) (m : Meter),
      ms.findIdx? (fun x => accepts x t) = some i →
      ms[i]? = some m →
      decryptionFails m t = false →
      m.callbacks = [Callback.outputPrint, Callback.oneshotCheckCb] →
      dispatch accepts config ms t =
        (ms.set i { m with numUpdates := m.numUpdates + 1 },
         Act.printOutput m.name ::
           (if oneshotCheck config (ms.set i { m with numUpdates := m.numUpdates + 1 })
            then [Act.stopManager] else []))) := by
  refine ⟨start_running_callbacks config env s hrun, ?_⟩
  intro accepts ms t i m hfind hget hdf hcb
  unfold dispatch
  rw [hfind]
  dsimp only
  rw [hget]
  simp only [hdf, Bool.false_eq_true, if_false, hcb, runCallbacks, runCallback]
  simp

theorem output_print_before_oneshot_stop_witness :
    Meter.callbacks
        { factory := Factory.multical21, name := "w", id := "12345678", key := "",
          numUpdates := 0,
          callbacks := [Callback.outputPrint, Callback.oneshotCheckCb] } =
      [Callback.outputPrint, Callback.oneshotCheckCb] ∧
    dispatch (fun m t => m.id == t.id)
        { use_logfile := false, daemon := false, oneshot := true,
          list_shell_envs := false, link_mode_set := false,
          link_mode := LinkMode.unknown,
          meters := [{ name := "w", type := "multical21", id := "12345678", key := "" }] }
        [{ factory := Factory.multical21, name := "w", id := "12345678", key := "",
           numUpdates := 0,
           callbacks := [Callback.outputPrint, Callback.oneshotCheckCb] }]
        { id := "12345678", manufacturer := 0, encrypted := false, key := "" } =
      ([{ factory := Factory.multical21, name := "w", id := "12345678", key := "",
          numUpdates := 1,
          callbacks := [Callback.outputPrint, Callback.oneshotCheckCb] }],
       [Act.printOutput "w", Act.stopManager]) :=
  ⟨(output_print_before_oneshot_stop
      { use_logfile := false, daemon := false, oneshot := true,
        list_shell_envs := false, link_mode_set := false,
        link_mode := LinkMode.unknown,
        meters := [{ name := "w", type := "multical21", id := "12345678", key := "" }] }
      { device := DeviceType.im871a, logfile_ok := true }
      { link_mode_set := true, link_mode := LinkMode.c1,
        meters := [{ factory := Factory.multical21, name := "w", id := "12345678",
                     key := "", numUpdates := 0,
                     callbacks := [Callback.outputPrint, Callback.oneshotCheckCb] }] }
      (by decide)).1
    { factory := Factory.multical21, name := "w", id := "12345678", key := "",
      numUpdates := 0, callbacks := [Callback.outputPrint, Callback.oneshotCheckCb] }
    (List.mem_cons_self _ _),
   ((output_print_before_oneshot_stop
      { use_logfile := false, daemon := false, oneshot := true,
        list_shell_envs := false, link_mode_set := false,
        link_mode := LinkMode.unknown,
        meters := [{ name := "w", type := "multical21", id := "12345678", key := "" }] }
      { device := DeviceType.im871a, logfile_ok := true }
      { link_mode_set := true, link_mode := LinkMode.c1,
        meters := [{ factory := Factory.multical21, name := "w", id := "12345678",
                     key := "", numUpdates := 0,
                     callbacks := [Callback.outputPrint, Callback.oneshotCheckCb] }] }
      (by decide)).2
    (fun m t => m.id == t.id)
    [{ factory := Factory.multical21, name := "w", id := "12345678", key := "",
       numUpdates := 0, callbacks := [Callback.outputPrint, Callback.oneshotCheckCb] }]
    { id := "12345678", manufacturer := 0, encrypted := false, key := "" }
    0
    { factory := Factory.multical21, name := "w", id := "12345678", key := "",
      numUpdates := 0, callbacks := [Callback.outputPrint, Callback.oneshotCheckCb] }
    (by decide) (by decide) (by decide) (by decide)).trans (by decide)⟩

/-- Claim C7: an encrypted telegram processed with a wrong or absent key is
dropped by the dispatcher — the meter list (and hence the matching meter's
update count) is unchanged — so the telegram never contributes to
satisfying the oneshot predicate. -/
theorem decryption_failure_drops_telegram (accepts : Meter → Telegram → Bool)
    (config : Configuration) (ms : List Meter) (t : Telegram) (i : Nat) (m : Meter)
    (hfind : ms.findIdx? (fun x => accepts x t) = some i)
    (hget : ms[i]? = some m)
    (henc : t.encrypted = true)
    (hkey : m.key ≠ t.key) :
    dispatch accepts config ms t = (ms, [Act.dropDecryptionFailed]) ∧
    oneshotCheck config (dispatch accepts config ms t).1 = oneshotCheck config ms := by
  have hdf : decryptionFails m t = true := by simp [decryptionFails, henc, hkey]
  have h : dispatch accepts config ms t = (ms, [Act.dropDecryptionFailed]) := by
    unfold dispatch
    rw [hfind]
    dsimp only
    rw [hget]
    simp only [hdf, if_true]
  exact ⟨h, by rw [h]⟩

theorem decryption_failure_drops_telegram_witness :
    dispatch (fun m t => m.id == t.id)
        { use_logfile := false, daemon := false, oneshot := true,
          list_shell_envs := false, link_mode_set := true,
          link_mode := LinkMode.c1, meters := [] }
        [{ factory := Factory.multical21, name := "w", id := "12345678",
           key := "00112233445566778899AABBCCDDEEFF", numUpdates := 0,
           callbacks := [Callback.outputPrint, Callback.oneshotCheckCb] }]
        { id := "12345678", manufacturer := 0, encrypted := true,
          key := "10112233445566778899AABBCCDDEEFF" } =
      ([{ factory := Factory.multical21, name := "w", id := "12345678",
          key := "00112233445566778899AABBCCDDEEFF", numUpdates := 0,
          callbacks := [Callback.outputPrint, Callback.oneshotCheckCb] }],
       [Act.dropDecryptionFailed]) :=
  (decryption_failure_drops_telegram (fun m t => m.id == t.id)
    { use_logfile := false, daemon := false, oneshot := true,
      list_shell_envs := false, link_mode_set := true,
      link_mode := LinkMode.c1, meters := [] }
    [{ factory := Factory.multical21, name := "w", id := "12345678",
       key := "00112233445566778899AABBCCDDEEFF", numUpdates := 0,
       callbacks := [Callback.outputPrint, Callback.oneshotCheckCb] }]
    { id := "12345678", manufacturer := 0, encrypted := true,
      key := "10112233445566778899AABBCCDDEEFF" }
    0
    { factory := Factory.multical21, name := "w", id := "12345678",
      key := "00112233445566778899AABBCCDDEEFF", numUpdates := 0,
      callbacks := [Callback.outputPrint, Callback.oneshotCheckCb] }
    (by decide) (by decide) rfl (by decide)).1

theorem runCallbacks_mem (config : Configuration) (ms : List Meter) (m : Meter)
    (cbs : List Callback) (a : Act) (h : a ∈ runCallbacks config ms m cbs) :
    (∃ n, a = Act.printOutput n) ∨ a = Act.stopManager := by
  induction cbs with
  | nil => simp [runCallbacks] at h
  | cons c rest ih =>
    simp only [runCallbacks, List.mem_append] at h
    rcases h with h | h
    · cases c
      · simp only [runCallback, List.mem_singleton] at h
        subst h; exact Or.inl ⟨m.name, rfl⟩
      · simp only [runCallback] at h
        split at h
        · simp only [List.mem_singleton] at h
          subst h; exact Or.inr rfl
        · simp at h
    · exact ih h

theorem runEventLoopDiscovery_mem (ts : List Telegram) (a : Act)
    (h : a ∈ runEventLoopDiscovery ts) : ∃ i, a = Act.printId i := by
  induction ts with
  | nil => simp [runEventLoopDiscovery] at h
  | cons t rest ih =>
    simp only [runEventLoopDiscovery, discoveryCallback, List.mem_append,
      List.mem_singleton] at h
    rcases h with h | h
    · subst h; exact ⟨t.id, rfl⟩
    · exact ih h

theorem start_not_running_no_wait (config : Configuration) (env : Env)
    (h : isRunning (startUsingCommandline config env).2 = false) :
    Act.waitForStop ∉ (startUsingCommandline config env).1 := by
  rcases hla : logfileActions config env with ⟨la, b⟩
  have hlamem : Act.waitForStop ∉ la := by
    intro hmem
    have := logfileActions_mem config env _ (by rw [hla]; exact hmem)
    rcases this with h1 | h1 <;> simp at h1
  cases b with
  | true =>
    rw [start_logfile_fatal config env la hla]
    exact hlamem
  | false =>
    by_cases hdu : env.device = DeviceType.unknown
    · rw [start_device_unknown config env la hla hdu]
      simp [List.mem_append, hlamem]
    · have heq := start_eq_withDevice config env la env.device hla rfl hdu
      rw [heq] at h ⊢
      rcases hi : inferLinkMode env.device config.link_mode_set config.link_mode
          config.meters with e | ⟨lmSet, lm⟩
      · rw [startWithDevice_infer_err config la env.device e hi]
        simp [List.mem_append, hlamem]
      · by_cases hcond : lmSet = false ∧ env.device ≠ DeviceType.rtlwmbus ∧
            env.device ≠ DeviceType.simulator
        · rcases hcond with ⟨hlmf, hc1, hc2⟩
          subst hlmf
          rw [startWithDevice_missing config la env.device lm hi hc1 hc2]
          simp [List.mem_append, hlamem]
        · rw [startWithDevice_infer_ok config la env.device lmSet lm hi hcond] at h ⊢
          apply startMeterPhase_no_wait
          · simp [List.mem_append, hlamem]
          · exact h

/-- Claim C8: every fatal error path of startup (and every exit path)
terminates before waitForStop is reached, and telegram-level processing —
the dispatch pipeline and the discovery callback — never produces a fatal
error or a process exit. -/
theorem fatal_only_before_event_loop (config : Configuration) (env : Env) :
    (∀ e, (startUsingCommandline config env).2 = Outcome.fatal e →
      Act.waitForStop ∉ (startUsingCommandline config env).1) ∧
    (∀ c, (startUsingCommandline config env).2 = Outcome.exited c →
      Act.waitForStop ∉ (startUsingCommandline config env).1) ∧
    (∀ (accepts : Meter → Telegram → Bool) (ms : List Meter) (t : Telegram),
      ∀ a ∈ (dispatch accepts config ms t).2,
        (∀ e, a ≠ Act.fatalError e) ∧ (∀ c, a ≠ Act.exitProcess c)) ∧
    (∀ ts : List Telegram, ∀ a ∈ runEventLoopDiscovery ts,
      (∀ e, a ≠ Act.fatalError e) ∧ (∀ c, a ≠ Act.exitProcess c)) := by
  refine ⟨?_, ?_, ?_, ?_⟩
  · intro e he
    exact start_not_running_no_wait config env (by rw [he]; rfl)
  · intro c hc
    exact start_not_running_no_wait config env (by rw [hc]; rfl)
  · intro accepts ms t a ha
    unfold dispatch at ha
    rcases hf : ms.findIdx? (fun x => accepts x t) with _ | i
    · rw [hf] at ha; simp at ha
    · rw [hf] at ha
      dsimp only at ha
      rcases hg : ms[i]? with _ | m
      · rw [hg] at ha; simp at ha
      · rw [hg] at ha
        dsimp only at ha
        by_cases hdf : decryptionFails m t = true
        · rw [if_pos hdf] at ha
          simp only [List.mem_singleton] at ha
          subst ha
          exact ⟨fun e => by simp, fun c => by simp⟩
        · rw [if_neg hdf] at ha
          dsimp only at ha
          rcases runCallbacks_mem config _ _ _ a ha with ⟨n, rfl⟩ | rfl
          · exact ⟨fun e => by simp, fun c => by simp⟩
          · exact ⟨fun e => by simp, fun c => by simp⟩
  · intro ts a ha
    rcases runEventLoopDiscovery_mem ts a ha with ⟨i, rfl⟩
    exact ⟨fun e => by simp, fun c => by simp⟩

theorem fatal_only_before_event_loop_witness :
    Act.waitForStop ∉
      (startUsingCommandline
        { use_logfile := false, daemon := false, oneshot := false,
          list_shell_envs := false, link_mode_set := false,
          link_mode := LinkMode.unknown,
          meters := [{ name := "x", type := "notameter", id := "1", key := "" }] }
        { device := DeviceType.im871a, logfile_ok := true }).1 ∧
    Act.dropDecryptionFailed ≠ Act.fatalError FatalError.logfileError :=
  ⟨(fatal_only_before_event_loop
      { use_logfile := false, daemon := false, oneshot := false,
        list_shell_envs := false, link_mode_set := false,
        link_mode := LinkMode.unknown,
        meters := [{ name := "x", type := "notameter", id := "1", key := "" }] }
      { device := DeviceType.im871a, logfile_ok := true }).1
    FatalError.unknownMeterType (by decide),
   ((fatal_only_before_event_loop
      { use_logfile := false, daemon := false, oneshot := false,
        list_shell_envs := false, link_mode_set := false,
        link_mode := LinkMode.unknown,
        meters := [{ name := "x", type := "notameter", id := "1", key := "" }] }
      { device := DeviceType.im871a, logfile_ok := true }).2.2.1
    (fun m t => m.id == t.id)
    [{ factory := Factory.multical21, name := "w", id := "1", key := "AA",
       numUpdates := 0, callbacks := [Callback.outputPrint, Callback.oneshotCheckCb] }]
    { id := "1", manufacturer := 0, encrypted := true, key := "BB" }
    Act.dropDecryptionFailed (by decide)).1 FatalError.logfileError⟩

end Wmbus
